import Mathlib

/-!
Verification of the agent-orchestrator repository: a shallow embedding of
the plugin code (SCM merge readiness, webhook notifier retry, notifier test
loop, agent activity detection, process-liveness checks, plugin lookup) and
proofs of the specified properties.
-/

set_option maxHeartbeats 1000000

namespace AgentOrchestrator

/-! ## SCM plugin (scm-github): CI summary and merge readiness -/

/-- Status of a single CI check, as classified by `getCIChecks`. -/
inductive CheckStatus
  | pending
  | running
  | passed
  | failed
  | skipped
deriving DecidableEq, Repr

/-- Aggregate CI status returned by `getCISummary`. -/
inductive CIStatus
  | none
  | failing
  | pending
  | passing
deriving DecidableEq, Repr

/-- The string rendering of a `CIStatus` (used in the `CI is ...` blocker). -/
def ciStatusText : CIStatus → String
  | .none => "none"
  | .failing => "failing"
  | .pending => "pending"
  | .passing => "passing"

/-- Embedding of `getCISummary`: no checks means `none`; any failed check means
`failing`; otherwise any pending or running check means `pending`; otherwise
`passing`. -/
def getCISummary (checks : List CheckStatus) : CIStatus :=
  if checks = [] then .none
  else if checks.any (fun c => c == .failed) then .failing
  else if checks.any (fun c => c == .pending || c == .running) then .pending
  else .passing

/-- Model of JavaScript `String.prototype.toUpperCase` (character-wise upcasing). -/
def jsToUpper (s : String) : String :=
  ⟨s.data.map Char.toUpper⟩

/-- The fields of the `gh pr view` JSON consumed by `getMergeability`
(`mergeStateStatus` is fetched but unused). -/
structure PRViewData where
  mergeable : String
  reviewDecision : String
  isDraft : Bool

/-- The `MergeReadiness` record returned by `getMergeability`. -/
structure MergeReadiness where
  mergeable : Bool
  ciPassing : Bool
  approved : Bool
  noConflicts : Bool
  blockers : List String
deriving DecidableEq, Repr

/-- Embedding of `getMergeability`: blockers are pushed in source order
(CI, review, conflicts, draft) and `mergeable` is `blockers.length === 0`. -/
def getMergeability (checks : List CheckStatus) (data : PRViewData) : MergeReadiness :=
  let ciStatus := getCISummary checks
  let ciPassing : Bool := ciStatus == .passing || ciStatus == .none
  let ciBlockers : List String :=
    if ciPassing then [] else ["CI is " ++ ciStatusText ciStatus]
  let reviewDecision := jsToUpper data.reviewDecision
  let approved : Bool := reviewDecision == "APPROVED"
  let reviewBlockers : List String :=
    if reviewDecision == "CHANGES_REQUESTED" then ["Changes requested in review"]
    else if reviewDecision == "REVIEW_REQUIRED" then ["Review required"]
    else []
  let noConflicts : Bool := !(jsToUpper data.mergeable == "CONFLICTING")
  let conflictBlockers : List String := if noConflicts then [] else ["Merge conflicts"]
  let draftBlockers : List String := if data.isDraft then ["PR is still a draft"] else []
  let blockers := ciBlockers ++ reviewBlockers ++ conflictBlockers ++ draftBlockers
  { mergeable := blockers.isEmpty
    ciPassing := ciPassing
    approved := approved
    noConflicts := noConflicts
    blockers := blockers }

/-- The fixed priority order of possible blocker strings. -/
def blockerOrder : List String :=
  ["CI is failing", "CI is pending", "Changes requested in review",
   "Review required", "Merge conflicts", "PR is still a draft"]

example : getCISummary [] = .none := by decide
example : getCISummary [.passed, .failed] = .failing := by decide
example :
    (getMergeability [.failed] ⟨"MERGEABLE", "CHANGES_REQUESTED", false⟩).blockers =
      ["CI is failing", "Changes requested in review"] := by decide
example :
    getMergeability [.passed] ⟨"MERGEABLE", "APPROVED", false⟩ =
      ⟨true, true, true, true, []⟩ := by decide

/-- C1: `getMergeability` returns `mergeable = true` iff the blocker list is
empty; the blockers appear as a sublist of the fixed order CI non-passing,
changes requested, review required, merge conflicts, still draft; with CI
passing, review APPROVED, not CONFLICTING and not draft the result is all-green
with no blockers; and with CI failing plus CHANGES_REQUESTED the blockers start
with "CI is failing" followed by "Changes requested in review". -/
theorem getMergeability_blockers_spec (checks : List CheckStatus) (data : PRViewData) :
    ((getMergeability checks data).mergeable = true ↔
      (getMergeability checks data).blockers = [])
    ∧ (getMergeability checks data).blockers.Sublist blockerOrder
    ∧ (getCISummary checks = .passing → jsToUpper data.reviewDecision = "APPROVED" →
        jsToUpper data.mergeable ≠ "CONFLICTING" → data.isDraft = false →
        getMergeability checks data = ⟨true, true, true, true, []⟩)
    ∧ (getCISummary checks = .failing → jsToUpper data.reviewDecision = "CHANGES_REQUESTED" →
        (getMergeability checks data).blockers.take 2 =
          ["CI is failing", "Changes requested in review"]) := by
  cases hci : getCISummary checks <;>
    by_cases h1 : jsToUpper data.reviewDecision = "CHANGES_REQUESTED" <;>
    by_cases h2 : jsToUpper data.reviewDecision = "REVIEW_REQUIRED" <;>
    by_cases h3 : jsToUpper data.mergeable = "CONFLICTING" <;>
    cases hd : data.isDraft <;>
    simp_all [getMergeability, blockerOrder, beq_iff_eq] <;>
    decide

/-- Witness for C1: a PR with one passed check, review decision APPROVED, a
MERGEABLE merge state and not a draft is fully mergeable with no blockers. -/
theorem getMergeability_blockers_spec_witness :
    getMergeability [CheckStatus.passed] ⟨"MERGEABLE", "APPROVED", false⟩ =
      ⟨true, true, true, true, []⟩ :=
  (getMergeability_blockers_spec [CheckStatus.passed]
    ⟨"MERGEABLE", "APPROVED", false⟩).2.2.1 (by decide) (by decide) (by decide) rfl

/-- C8: a PR with zero CI checks has CI summary `none` and is treated as CI
passing by `getMergeability`, and the `CI is <status>` blocker is present
exactly when the CI summary is `failing` or `pending`. -/
theorem getMergeability_ci_none_spec (checks : List CheckStatus) (data : PRViewData) :
    (checks = [] → getCISummary checks = .none ∧
      (getMergeability checks data).ciPassing = true)
    ∧ (("CI is " ++ ciStatusText (getCISummary checks)) ∈
        (getMergeability checks data).blockers ↔
        (getCISummary checks = .failing ∨ getCISummary checks = .pending)) := by
  constructor
  · rintro rfl
    simp [getMergeability, getCISummary]
  · cases hci : getCISummary checks <;>
      by_cases h1 : jsToUpper data.reviewDecision = "CHANGES_REQUESTED" <;>
      by_cases h2 : jsToUpper data.reviewDecision = "REVIEW_REQUIRED" <;>
      by_cases h3 : jsToUpper data.mergeable = "CONFLICTING" <;>
      cases hd : data.isDraft <;>
      simp_all [getMergeability, beq_iff_eq] <;>
      decide

/-- Witness for C8: a PR with zero CI checks has CI summary `none` and counts
as CI-passing for merge readiness. -/
theorem getMergeability_ci_none_spec_witness :
    getCISummary [] = .none ∧
      (getMergeability [] ⟨"MERGEABLE", "APPROVED", false⟩).ciPassing = true :=
  (getMergeability_ci_none_spec [] ⟨"MERGEABLE", "APPROVED", false⟩).1 rfl

/-! ## Webhook notifier: retry loop and no-url no-op behaviour -/

/-- Outcome of one `fetch` attempt: an ok response, a non-ok response (status
and body text), or a thrown error. -/
inductive FetchResult
  | ok
  | httpError (status : Nat) (body : String)
  | threw (msg : String)
deriving DecidableEq, Repr

/-- The error message recorded in `lastError` for a failed attempt. -/
def fetchErrMsg : FetchResult → String
  | .ok => ""
  | .httpError status body =>
      "Webhook POST failed (" ++ toString status ++ "): " ++ body
  | .threw msg => msg

/-- Trace of one `postWithRetry` run: the overall result, the number of
attempts made, and the sleep durations between attempts. -/
structure RetryTrace where
  result : Except String Unit
  attempts : Nat
  sleeps : List Nat
deriving Repr

/-- Embedding of the `postWithRetry` loop from `attempt` onwards, with `f i`
the outcome of the i-th fetch. The loop returns on the first ok response,
sleeps `retryDelayMs` when `attempt < retries`, and throws the last recorded
error after the final attempt. -/
def postWithRetryFrom (f : Nat → FetchResult) (retries retryDelayMs : Nat)
    (attempt : Nat) (lastError : Option String) : RetryTrace :=
  if _h : attempt ≤ retries then
    match f attempt with
    | .ok => { result := .ok (), attempts := 1, sleeps := [] }
    | r =>
      let msg := fetchErrMsg r
      let rest := postWithRetryFrom f retries retryDelayMs (attempt + 1) (some msg)
      if attempt < retries then
        { result := rest.result, attempts := rest.attempts + 1,
          sleeps := retryDelayMs :: rest.sleeps }
      else
        { result := rest.result, attempts := rest.attempts + 1, sleeps := rest.sleeps }
  else
    { result := .error (lastError.getD ""), attempts := 0, sleeps := [] }
termination_by retries + 1 - attempt
decreasing_by omega

/-- Embedding of `postWithRetry`: the loop starting at attempt 0 with no
recorded error. -/
def postWithRetry (f : Nat → FetchResult) (retries retryDelayMs : Nat) : RetryTrace :=
  postWithRetryFrom f retries retryDelayMs 0 none

/-- Configuration accepted by the webhook notifier `create`. -/
structure WebhookConfig where
  url : Option String
  retries : Option Nat
  retryDelayMs : Option Nat

/-- The retry count used by `create`: `config.retries ?? 2`. -/
def effectiveRetries (c : WebhookConfig) : Nat := c.retries.getD 2

/-- The retry delay used by `create`: `config.retryDelayMs ?? 1000`. -/
def effectiveRetryDelayMs (c : WebhookConfig) : Nat := c.retryDelayMs.getD 1000

/-- JavaScript truthiness of the configured url: `!url` holds for a missing
url and for the empty string. -/
def urlFalsy : Option String → Bool
  | none => true
  | some s => s == ""

/-- Embedding of the webhook notifier `notify`: a no-op without a url,
otherwise a `postWithRetry` delivery. Returns the overall result and the
number of HTTP requests issued. -/
def webhookNotify (c : WebhookConfig) (f : Nat → FetchResult) :
    Except String Unit × Nat :=
  if urlFalsy c.url then (.ok (), 0)
  else
    let t := postWithRetry f (effectiveRetries c) (effectiveRetryDelayMs c)
    (t.result, t.attempts)

/-- Embedding of `notifyWithActions`: same delivery policy as `notify`. -/
def webhookNotifyWithActions (c : WebhookConfig) (f : Nat → FetchResult) :
    Except String Unit × Nat :=
  if urlFalsy c.url then (.ok (), 0)
  else
    let t := postWithRetry f (effectiveRetries c) (effectiveRetryDelayMs c)
    (t.result, t.attempts)

/-- Embedding of the webhook notifier `post`: returns `null` without a url and
without issuing a request; otherwise delivers with retry and returns `null`
on success. -/
def webhookPost (c : WebhookConfig) (f : Nat → FetchResult) :
    Except String (Option String) × Nat :=
  if urlFalsy c.url then (.ok none, 0)
  else
    let t := postWithRetry f (effectiveRetries c) (effectiveRetryDelayMs c)
    match t.result with
    | .ok _ => (.ok none, t.attempts)
    | .error e => (.error e, t.attempts)

lemma postWithRetryFrom_stop (f : Nat → FetchResult) (r d a : Nat) (last : Option String)
    (h : r < a) :
    postWithRetryFrom f r d a last = ⟨.error (last.getD ""), 0, []⟩ := by
  rw [postWithRetryFrom, dif_neg (Nat.not_le.mpr h)]

lemma postWithRetryFrom_ok (f : Nat → FetchResult) (r d a : Nat) (last : Option String)
    (h : a ≤ r) (hf : f a = .ok) :
    postWithRetryFrom f r d a last = ⟨.ok (), 1, []⟩ := by
  rw [postWithRetryFrom, dif_pos h, hf]

lemma postWithRetryFrom_fail (f : Nat → FetchResult) (r d a : Nat) (last : Option String)
    (h : a ≤ r) (hf : f a ≠ .ok) :
    postWithRetryFrom f r d a last =
      { result := (postWithRetryFrom f r d (a + 1) (some (fetchErrMsg (f a)))).result
        attempts := (postWithRetryFrom f r d (a + 1) (some (fetchErrMsg (f a)))).attempts + 1
        sleeps :=
          if a < r then
            d :: (postWithRetryFrom f r d (a + 1) (some (fetchErrMsg (f a)))).sleeps
          else (postWithRetryFrom f r d (a + 1) (some (fetchErrMsg (f a)))).sleeps } := by
  rw [postWithRetryFrom, dif_pos h]
  cases hfa : f a with
  | ok => exact absurd hfa hf
  | httpError s b => by_cases har : a < r <;> simp [har]
  | threw m => by_cases har : a < r <;> simp [har]

lemma postWithRetryFrom_spec (f : Nat → FetchResult) (r d : Nat) :
    ∀ (fuel a : Nat) (last : Option String), r + 1 - a = fuel →
      (postWithRetryFrom f r d a last).attempts ≤ fuel ∧
      (a ≤ r → 1 ≤ (postWithRetryFrom f r d a last).attempts) ∧
      (postWithRetryFrom f r d a last).sleeps =
        List.replicate ((postWithRetryFrom f r d a last).attempts - 1) d ∧
      ((postWithRetryFrom f r d a last).result = .ok () ↔
        ∃ i, a ≤ i ∧ i ≤ r ∧ f i = .ok) ∧
      (a ≤ r → (∀ i, a ≤ i → i ≤ r → f i ≠ .ok) →
        (postWithRetryFrom f r d a last).result = .error (fetchErrMsg (f r))) ∧
      (∀ i, a ≤ i → i ≤ r → f i = .ok → (∀ j, a ≤ j → j < i → f j ≠ .ok) →
        (postWithRetryFrom f r d a last).attempts = i + 1 - a) := by
  intro fuel
  induction fuel with
  | zero =>
    intro a last hfuel
    have ha : r < a := by omega
    rw [postWithRetryFrom_stop f r d a last ha]
    refine ⟨by simp, by omega, by simp, ?_, by omega, ?_⟩
    · simp only [RetryTrace.mk.injEq]
      constructor
      · intro hc
        exact absurd hc (by simp)
      · rintro ⟨i, h1, h2, _⟩
        omega
    · intro i h1 h2 _ _
      omega
  | succ n ih =>
    intro a last hfuel
    have ha : a ≤ r := by omega
    by_cases hok : f a = .ok
    · rw [postWithRetryFrom_ok f r d a last ha hok]
      refine ⟨by simp, fun _ => le_refl 1, by simp, ?_, ?_, ?_⟩
      · exact iff_of_true rfl ⟨a, le_refl a, ha, hok⟩
      · intro _ hall
        exact absurd hok (hall a (le_refl a) ha)
      · intro i h1 h2 _ h4
        rcases Nat.eq_or_lt_of_le h1 with heq | hlt
        · show 1 = i + 1 - a
          omega
        · exact absurd hok (h4 a (le_refl a) hlt)
    · have hrw := postWithRetryFrom_fail f r d a last ha hok
      obtain ⟨ih1, ih2, ih3, ih4, ih5, ih6⟩ :=
        ih (a + 1) (some (fetchErrMsg (f a))) (by omega)
      rw [hrw]
      refine ⟨by simpa using by omega, by simp, ?_, ?_, ?_, ?_⟩
      · by_cases har : a < r
        · have h1 : 1 ≤ (postWithRetryFrom f r d (a + 1) (some (fetchErrMsg (f a)))).attempts :=
            ih2 (by omega)
          obtain ⟨k, hk⟩ :
              ∃ k, (postWithRetryFrom f r d (a + 1) (some (fetchErrMsg (f a)))).attempts
                = k + 1 :=
            ⟨(postWithRetryFrom f r d (a + 1) (some (fetchErrMsg (f a)))).attempts - 1,
              by omega⟩
          simp [har, hk, ih3, List.replicate_succ]
        · have hstop := postWithRetryFrom_stop f r d (a + 1)
            (some (fetchErrMsg (f a))) (by omega)
          simp [har, hstop]
      · simp only [ih4]
        constructor
        · rintro ⟨i, h1, h2, h3⟩
          exact ⟨i, by omega, h2, h3⟩
        · rintro ⟨i, h1, h2, h3⟩
          rcases Nat.eq_or_lt_of_le h1 with heq | hlt
          · exact absurd (heq ▸ h3) hok
          · exact ⟨i, by omega, h2, h3⟩
      · intro _ hall
        by_cases har : a < r
        · exact ih5 (by omega) (fun i hi1 hi2 => hall i (by omega) hi2)
        · have haeq : a = r := by omega
          subst haeq
          have hstop := postWithRetryFrom_stop f a d (a + 1)
            (some (fetchErrMsg (f a))) (by omega)
          simp [hstop]
      · intro i h1 h2 h3 h4
        have hne : a ≠ i := fun heq => hok (heq ▸ h3)
        have := ih6 i (by omega) h2 h3 (fun j hj1 hj2 => h4 j (by omega) hj2)
        simp only [this]
        omega

/-- C2: the webhook delivery loop makes at most `retries + 1` HTTP attempts
with a fixed `retryDelayMs` sleep between consecutive attempts, succeeds as
soon as an attempt gets an ok response (stopping right there), and raises the
last attempt's error only after all `retries + 1` attempts have failed; each
delivery operation (`notify`, `notifyWithActions`, `post`) is bounded by the
same attempt budget, and the defaults are `retries = 2` and
`retryDelayMs = 1000`. -/
lemma postWithRetry_attempts_le (f : Nat → FetchResult) (r d : Nat) :
    (postWithRetry f r d).attempts ≤ r + 1 := by
  have := (postWithRetryFrom_spec f r d (r + 1) 0 none (by omega)).1
  simpa [postWithRetry] using this

lemma webhook_ops_attempts_le (c : WebhookConfig) (f : Nat → FetchResult) :
    (webhookNotify c f).2 ≤ effectiveRetries c + 1 ∧
    (webhookNotifyWithActions c f).2 ≤ effectiveRetries c + 1 ∧
    (webhookPost c f).2 ≤ effectiveRetries c + 1 := by
  by_cases hu : urlFalsy c.url
  · simp [webhookNotify, webhookNotifyWithActions, webhookPost, hu]
  · refine ⟨?_, ?_, ?_⟩ <;>
      simp only [webhookNotify, webhookNotifyWithActions, webhookPost, hu,
        Bool.false_eq_true, if_false]
    · exact postWithRetry_attempts_le f _ _
    · exact postWithRetry_attempts_le f _ _
    · split <;> exact postWithRetry_attempts_le f _ _

theorem postWithRetry_policy (f : Nat → FetchResult) (r d : Nat) (c : WebhookConfig) :
    (postWithRetry f r d).attempts ≤ r + 1 ∧
    (postWithRetry f r d).sleeps =
      List.replicate ((postWithRetry f r d).attempts - 1) d ∧
    ((postWithRetry f r d).result = .ok () ↔ ∃ i, i ≤ r ∧ f i = .ok) ∧
    ((∀ i, i ≤ r → f i ≠ .ok) →
      (postWithRetry f r d).result = .error (fetchErrMsg (f r))) ∧
    (∀ i, i ≤ r → f i = .ok → (∀ j, j < i → f j ≠ .ok) →
      (postWithRetry f r d).attempts = i + 1) ∧
    (webhookNotify c f).2 ≤ effectiveRetries c + 1 ∧
    (webhookNotifyWithActions c f).2 ≤ effectiveRetries c + 1 ∧
    (webhookPost c f).2 ≤ effectiveRetries c + 1 ∧
    effectiveRetries ⟨none, none, none⟩ = 2 ∧
    effectiveRetryDelayMs ⟨none, none, none⟩ = 1000 := by
  obtain ⟨h1, _, h3, h4, h5, h6⟩ :=
    postWithRetryFrom_spec f r d (r + 1) 0 none (by omega)
  obtain ⟨w1, w2, w3⟩ := webhook_ops_attempts_le c f
  simp only [postWithRetry]
  refine ⟨h1, h3, ?_, ?_, ?_, w1, w2, w3, rfl, rfl⟩
  · rw [h4]
    constructor
    · rintro ⟨i, _, h2, h3⟩
      exact ⟨i, h2, h3⟩
    · rintro ⟨i, h2, h3⟩
      exact ⟨i, Nat.zero_le i, h2, h3⟩
  · intro hall
    exact h5 (Nat.zero_le r) (fun i _ => hall i)
  · intro i hi hoki hfirst
    have := h6 i (Nat.zero_le i) hi hoki (fun j _ => hfirst j)
    omega

/-- Witness for C2: with three straight failures and `retries = 2`, delivery
fails with the last error after three attempts and two 1000 ms sleeps. -/
theorem postWithRetry_policy_witness :
    (postWithRetry (fun _ => .threw "boom") 2 1000).result = .error "boom" ∧
      (postWithRetry (fun _ => .threw "boom") 2 1000).attempts ≤ 3 :=
  ⟨(postWithRetry_policy (fun _ => .threw "boom") 2 1000
      ⟨some "http://x", none, none⟩).2.2.2.1 (fun i _ h => FetchResult.noConfusion h),
    (postWithRetry_policy (fun _ => .threw "boom") 2 1000
      ⟨some "http://x", none, none⟩).1⟩

/-- C10: a webhook notifier created with no url is a successful no-op: `notify`
and `notifyWithActions` return without issuing any HTTP request, and `post`
returns `null` without issuing any HTTP request. -/
theorem webhook_no_url_noop (retriesCfg delayCfg : Option Nat) (f : Nat → FetchResult) :
    webhookNotify ⟨none, retriesCfg, delayCfg⟩ f = (.ok (), 0) ∧
    webhookNotifyWithActions ⟨none, retriesCfg, delayCfg⟩ f = (.ok (), 0) ∧
    webhookPost ⟨none, retriesCfg, delayCfg⟩ f = (.ok none, 0) := by
  refine ⟨?_, ?_, ?_⟩ <;> rfl

/-! ## CLI `notify test`: per-notifier delivery loop -/

/-- One notifier entry in the `notifiers` section of the configuration: its
plugin name (further options are opaque to the loop). -/
structure NotifierCfg where
  plugin : String

/-- The per-notifier outcome printed by the `notify test` loop: `skip` when the
name has no config, `pluginError` when the plugin's `create()` throws, `fail`
when `notify` rejects, `ok` on success. -/
inductive TestOutcome
  | skip
  | pluginError (msg : String)
  | fail (msg : String)
  | ok
deriving DecidableEq, Repr

/-- Whether this outcome leaves the loop's `allPassed` flag untouched
(`skip` and success do; both failure kinds clear it). -/
def outcomePassed : TestOutcome → Bool
  | .skip => true
  | .ok => true
  | .pluginError _ => false
  | .fail _ => false

/-- Embedding of the `notify test` per-notifier loop: for each configured name
in order, resolve its config (absent means skip), construct the notifier
(`createRes`, which may throw), and send the test event (`notifyRes`, which
may reject). Returns the ordered per-notifier outcome list and the final
`allPassed` flag. -/
def runNotifyTest (cfgOf : String → Option NotifierCfg)
    (createRes : String → Except String Unit)
    (notifyRes : String → Except String Unit) :
    List String → List (String × TestOutcome) × Bool
  | [] => ([], true)
  | name :: rest =>
    let outcome : TestOutcome :=
      match cfgOf name with
      | none => .skip
      | some _ =>
        match createRes name with
        | .error msg => .pluginError msg
        | .ok _ =>
          match notifyRes name with
          | .error msg => .fail msg
          | .ok _ => .ok
    let tail := runNotifyTest cfgOf createRes notifyRes rest
    ((name, outcome) :: tail.1, outcomePassed outcome && tail.2)

lemma runNotifyTest_append (cfgOf : String → Option NotifierCfg)
    (createRes notifyRes : String → Except String Unit) (xs ys : List String) :
    (runNotifyTest cfgOf createRes notifyRes (xs ++ ys)).1 =
      (runNotifyTest cfgOf createRes notifyRes xs).1 ++
        (runNotifyTest cfgOf createRes notifyRes ys).1 := by
  induction xs with
  | nil => simp [runNotifyTest]
  | cons n rest ihr => simp [runNotifyTest, ihr]

/-- C3: the `notify test` loop visits every configured notifier name in order
— the outcome list is keyed by exactly the input names — and one notifier's
failure never prevents the remaining notifiers from being attempted (the
outcome list for a concatenation is the concatenation of the outcome lists);
a throwing `create()` is recorded as that notifier's plugin error, a rejecting
`notify()` as that notifier's failure, and the aggregate is the per-notifier
list, with `allPassed` derived from it rather than an abort. -/
theorem runNotifyTest_per_notifier (cfgOf : String → Option NotifierCfg)
    (createRes notifyRes : String → Except String Unit)
    (names xs ys : List String) (n : String) (c : NotifierCfg) (msg : String) :
    ((runNotifyTest cfgOf createRes notifyRes names).1.map Prod.fst = names)
    ∧ ((runNotifyTest cfgOf createRes notifyRes (xs ++ ys)).1 =
        (runNotifyTest cfgOf createRes notifyRes xs).1 ++
          (runNotifyTest cfgOf createRes notifyRes ys).1)
    ∧ (cfgOf n = some c → createRes n = .error msg →
        (runNotifyTest cfgOf createRes notifyRes [n]).1 = [(n, .pluginError msg)])
    ∧ (cfgOf n = some c → createRes n = .ok () → notifyRes n = .error msg →
        (runNotifyTest cfgOf createRes notifyRes [n]).1 = [(n, .fail msg)])
    ∧ ((runNotifyTest cfgOf createRes notifyRes names).2 =
        (runNotifyTest cfgOf createRes notifyRes names).1.all
          (fun p => outcomePassed p.2)) := by
  refine ⟨?_, runNotifyTest_append cfgOf createRes notifyRes xs ys, ?_, ?_, ?_⟩
  · induction names with
    | nil => simp [runNotifyTest]
    | cons m rest ihr => simp [runNotifyTest, ihr]
  · intro hc hcr
    simp [runNotifyTest, hc, hcr]
  · intro hc hcr hn
    simp [runNotifyTest, hc, hcr, hn]
  · induction names with
    | nil => simp [runNotifyTest]
    | cons m rest ihr => simp [runNotifyTest, ihr]

/-- Witness for C3: a configured notifier whose `notify` rejects is recorded
as that notifier's failure outcome. -/
theorem runNotifyTest_per_notifier_witness :
    (runNotifyTest (fun _ => some ⟨"desktop"⟩) (fun _ => .ok ())
        (fun _ => .error "connection refused") ["a"]).1 =
      [("a", .fail "connection refused")] :=
  (runNotifyTest_per_notifier (fun _ => some ⟨"desktop"⟩) (fun _ => .ok ())
    (fun _ => .error "connection refused")
    ["a"] [] [] "a" ⟨"desktop"⟩ "connection refused").2.2.2.1 rfl rfl rfl

/-! ## Process-liveness checks: shared helper and agent-aider's own version

String scanning is modelled over `List Char`. JavaScript `split(/\s+/)` after
`trimStart()` is modelled as splitting into maximal non-whitespace runs, and
the `\s` class as ASCII whitespace; both checks below parse `ps` output the
same way, so the modelling is symmetric. -/

/-- ASCII whitespace as matched by the regex class used in the source. -/
def jsWs (c : Char) : Bool := c = ' ' || c = '\t' || c = '\n' || c = '\r'

/-- Drop leading whitespace characters. -/
def dropLeadingWs : List Char → List Char
  | [] => []
  | c :: cs => if jsWs c then dropLeadingWs cs else c :: cs

/-- Model of JavaScript `trim()`. -/
def jsTrim (s : String) : String :=
  ⟨dropLeadingWs ((dropLeadingWs s.data.reverse).reverse)⟩

/-- Split a character list at every occurrence of `sep` (JavaScript
`split(sep)`, which keeps empty segments). -/
def splitOnChar (sep : Char) : List Char → List (List Char)
  | [] => [[]]
  | c :: cs =>
    match splitOnChar sep cs with
    | [] => [[]]
    | t :: ts => if c = sep then [] :: t :: ts else (c :: t) :: ts

/-- Model of JavaScript `split("\n")`. -/
def jsSplitLines (s : String) : List String :=
  (splitOnChar '\n' s.data).map (fun l => ⟨l⟩)

/-- Model of `line.trimStart().split(/\s+/)`: the maximal non-whitespace runs
of the line. -/
def jsCols (line : String) : List String :=
  ((splitWsChars line.data).filter (fun l => l ≠ [])).map (fun l => ⟨l⟩)
where
  splitWsChars : List Char → List (List Char)
    | [] => [[]]
    | c :: cs =>
      match splitWsChars cs with
      | [] => [[]]
      | t :: ts => if jsWs c then [] :: t :: ts else (c :: t) :: ts

/-- Model of `t.replace(/^\/dev\//, "")`. -/
def stripDev (s : String) : String :=
  if "/dev/".data.isPrefixOf s.data then ⟨s.data.drop 5⟩ else s

/-- Model of `cols.slice(2).join(" ")` applied to a column list. -/
def joinSpace : List String → String
  | [] => ""
  | [s] => s
  | s :: rest => s ++ " " ++ joinSpace rest

/-- Whether the character after a candidate process-name occurrence satisfies
the regex tail `(?:\s|$)`. -/
def wordEndOk : List Char → Bool
  | [] => true
  | c :: _ => jsWs c

/-- Whether `rest` begins with `name` followed by whitespace or the end. -/
def nameAt (name rest : List Char) : Bool :=
  match name, rest with
  | [], r => wordEndOk r
  | _ :: _, [] => false
  | n :: ns, c :: cs => n == c && nameAt ns cs

/-- Scan for a match of `(?:^|/)name(?:\s|$)`: `atBoundary` records whether the
current position is the string start or preceded by a slash. -/
def reScan (name : List Char) : Bool → List Char → Bool
  | _, [] => false
  | atBoundary, c :: cs => (atBoundary && nameAt name (c :: cs)) || reScan name (c == '/') cs

/-- Model of the shared helper's word-boundary regex test on an args string. -/
def processNameMatches (processName args : String) : Bool :=
  reScan processName.data true args.data

/-- Model of JavaScript `s.includes(pat)`. -/
def jsIncludes (s pat : String) : Bool :=
  go pat.data s.data
where
  go (pat : List Char) : List Char → Bool
    | [] => pat.isEmpty
    | c :: cs => pat.isPrefixOf (c :: cs) || go pat cs

/-- Model of JavaScript `s.startsWith(pat)`. -/
def jsStartsWith (s pat : String) : Bool := pat.data.isPrefixOf s.data

/-- Agent-aider's own args matcher: exact name, name followed by a space at the
start, or a `/aider` substring anywhere. -/
def aiderArgsMatch (args : String) : Bool :=
  args == "aider" || jsStartsWith args "aider " ||
    jsIncludes args "/aider " || jsIncludes args "/aider"

/-- A runtime handle: the hosting runtime's name, its id (a tmux target, may
be empty), and the numeric `pid` entry of its `data` bag, when present. -/
structure RuntimeHandle where
  runtimeName : String
  id : String
  pid : Option Int

/-- Result of `process.kill(pid, 0)`: success, an EPERM failure, or another
failure (e.g. ESRCH). -/
inductive KillResult
  | ok
  | eperm
  | otherError
deriving DecidableEq, Repr

/-- The external world consulted by a liveness check: the stdout (or thrown
error) of `tmux list-panes -t <id>`, of `ps -eo pid,tty,args`, and the
behaviour of `process.kill(pid, 0)`. -/
structure ProcEnv where
  tmuxListPanes : String → Except String String
  ps : Except String String
  kill0 : Int → KillResult

/-- One external process invocation and the execution timeout passed to it. -/
structure ExtInvocation where
  program : String
  timeoutMs : Option Nat
deriving DecidableEq, Repr

/-- One `ps` line as tested by the shared helper: at least three columns, the
tty column in the pane tty set, and the args matching the word-boundary
regex. -/
def psLineMatchesShared (ttySet : List String) (processName : String) (line : String) : Bool :=
  let cols := jsCols line
  if cols.length < 3 then false
  else if !(ttySet.contains ((cols.get? 1).getD "")) then false
  else processNameMatches processName (joinSpace (cols.drop 2))

/-- Embedding of the shared `isAgentProcessRunning` helper, returning the
boolean result and the trace of external invocations (with their timeouts).
Both external calls carry a 30 000 ms timeout; any thrown error is caught and
yields `false`. -/
def isAgentProcessRunningT (env : ProcEnv) (handle : RuntimeHandle) (processName : String) :
    Bool × List ExtInvocation :=
  if handle.runtimeName = "tmux" ∧ handle.id ≠ "" then
    match env.tmuxListPanes handle.id with
    | .error _ => (false, [⟨"tmux", some 30000⟩])
    | .ok ttyOut =>
      let ttys := ((jsSplitLines (jsTrim ttyOut)).map jsTrim).filter (fun t => t ≠ "")
      if ttys = [] then (false, [⟨"tmux", some 30000⟩])
      else
        match env.ps with
        | .error _ => (false, [⟨"tmux", some 30000⟩, ⟨"ps", some 30000⟩])
        | .ok psOut =>
          let ttySet := ttys.map stripDev
          ((jsSplitLines psOut).any (psLineMatchesShared ttySet processName),
            [⟨"tmux", some 30000⟩, ⟨"ps", some 30000⟩])
  else
    match handle.pid with
    | some p =>
      if p > 0 then
        match env.kill0 p with
        | .ok => (true, [])
        | .eperm => (true, [])
        | .otherError => (false, [])
      else (false, [])
    | none => (false, [])

/-- One `ps` line as tested by agent-aider's own check: tty column equal to
the first pane's tty, args matching `aiderArgsMatch`. -/
def aiderLineMatches (ttyShort : String) (line : String) : Bool :=
  let cols := jsCols line
  if cols.length < 3 then false
  else if !((cols.get? 1).getD "" == ttyShort) then false
  else aiderArgsMatch (joinSpace (cols.drop 2))

/-- Embedding of agent-aider's own `isProcessRunning`: same two-branch shape
as the shared helper, but it uses only the first pane tty, its own substring
matcher, no timeout on the external invocations, and no EPERM special case. -/
def aiderIsProcessRunningT (env : ProcEnv) (handle : RuntimeHandle) :
    Bool × List ExtInvocation :=
  if handle.runtimeName = "tmux" ∧ handle.id ≠ "" then
    match env.tmuxListPanes handle.id with
    | .error _ => (false, [⟨"tmux", none⟩])
    | .ok ttyOut =>
      let tty := (jsSplitLines (jsTrim ttyOut)).headD ""
      if tty = "" then (false, [⟨"tmux", none⟩])
      else
        let ttyShort := stripDev tty
        match env.ps with
        | .error _ => (false, [⟨"tmux", none⟩, ⟨"ps", none⟩])
        | .ok psOut =>
          ((jsSplitLines psOut).any (aiderLineMatches ttyShort),
            [⟨"tmux", none⟩, ⟨"ps", none⟩])
  else
    match handle.pid with
    | some p =>
      if p > 0 then
        match env.kill0 p with
        | .ok => (true, [])
        | _ => (false, [])
      else (false, [])
    | none => (false, [])

example :
    (aiderIsProcessRunningT
      ⟨fun _ => .ok "/dev/ttys001\n", .ok "  123 ttys001 /aiderfoo", fun _ => .otherError⟩
      ⟨"tmux", "x", none⟩).1 = true := by decide
example :
    (isAgentProcessRunningT
      ⟨fun _ => .ok "/dev/ttys001\n", .ok "  123 ttys001 /aiderfoo", fun _ => .otherError⟩
      ⟨"tmux", "x", none⟩ "aider").1 = false := by decide
example :
    (isAgentProcessRunningT
      ⟨fun _ => .ok "/dev/ttys001\n", .ok "  123 ttys001 /usr/bin/aider --yes", fun _ => .otherError⟩
      ⟨"tmux", "x", none⟩ "aider").1 = true := by decide

/-! ## Agent activity detection (codex, opencode, aider) -/

/-- The activity-state lattice. -/
inductive ActivityState
  | idle
  | active
  | exited
  | unknown
deriving DecidableEq, Repr

/-- The detection record returned by `getActivityState`. -/
structure ActivityDetection where
  state : ActivityState
deriving DecidableEq, Repr

/-- A session as consumed by the activity checks: its id and optional runtime
handle. -/
structure Session where
  id : String
  runtimeHandle : Option RuntimeHandle

/-- Embedding of the codex plugin's `getActivityState`, paired with the number
of process-liveness calls it performs: no runtime handle means `exited` with
no liveness call; a dead process means `exited`; a live process means `null`
(unknown), never a guess. -/
def codexGetActivityState (env : ProcEnv) (s : Session) : Option ActivityDetection × Nat :=
  match s.runtimeHandle with
  | none => (some ⟨.exited⟩, 0)
  | some h =>
    if (isAgentProcessRunningT env h "codex").1 then (none, 1)
    else (some ⟨.exited⟩, 1)

/-- Embedding of the opencode plugin's `getActivityState` (same shape as
codex, with its own process name). -/
def opencodeGetActivityState (env : ProcEnv) (s : Session) : Option ActivityDetection × Nat :=
  match s.runtimeHandle with
  | none => (some ⟨.exited⟩, 0)
  | some h =>
    if (isAgentProcessRunningT env h "opencode").1 then (none, 1)
    else (some ⟨.exited⟩, 1)

/-- Embedding of the aider plugin's `detectActivity`, paired with its
liveness-call count: no handle means `exited` with no liveness call; a dead
process means `exited`; otherwise `active`. -/
def aiderDetectActivity (env : ProcEnv) (s : Session) : ActivityState × Nat :=
  match s.runtimeHandle with
  | none => (.exited, 0)
  | some h =>
    if (aiderIsProcessRunningT env h).1 then (.active, 1) else (.exited, 1)

/-- C4: whenever the session's underlying process is alive, the codex and
opencode plugins' `getActivityState` returns `null` (the unknown value),
never a guessed idle or active state. -/
theorem codex_opencode_unknown_when_alive (env : ProcEnv) (s : Session) (h : RuntimeHandle) :
    (s.runtimeHandle = some h → (isAgentProcessRunningT env h "codex").1 = true →
      codexGetActivityState env s = (none, 1)) ∧
    (s.runtimeHandle = some h → (isAgentProcessRunningT env h "opencode").1 = true →
      opencodeGetActivityState env s = (none, 1)) := by
  constructor <;> intro hs hr <;>
    simp [codexGetActivityState, opencodeGetActivityState, hs, hr]

/-- Witness for C4: a live bare process (kill succeeds) makes codex's
`getActivityState` return `null`. -/
theorem codex_opencode_unknown_when_alive_witness :
    codexGetActivityState ⟨fun _ => .ok "", .ok "", fun _ => .ok⟩
      ⟨"s1", some ⟨"process", "", some 1⟩⟩ = (none, 1) :=
  (codex_opencode_unknown_when_alive ⟨fun _ => .ok "", .ok "", fun _ => .ok⟩
    ⟨"s1", some ⟨"process", "", some 1⟩⟩ ⟨"process", "", some 1⟩).1 rfl (by decide)

/-- C5: the agent activity checks resolve process liveness first and
short-circuit to `exited` when the process is not running; a session with no
runtime handle yields `exited` with zero liveness calls. -/
theorem activity_short_circuit (env : ProcEnv) (s : Session) (h : RuntimeHandle) :
    (s.runtimeHandle = none →
      codexGetActivityState env s = (some ⟨.exited⟩, 0) ∧
      opencodeGetActivityState env s = (some ⟨.exited⟩, 0) ∧
      aiderDetectActivity env s = (.exited, 0)) ∧
    (s.runtimeHandle = some h → (isAgentProcessRunningT env h "codex").1 = false →
      codexGetActivityState env s = (some ⟨.exited⟩, 1)) ∧
    (s.runtimeHandle = some h → (isAgentProcessRunningT env h "opencode").1 = false →
      opencodeGetActivityState env s = (some ⟨.exited⟩, 1)) ∧
    (s.runtimeHandle = some h → (aiderIsProcessRunningT env h).1 = false →
      aiderDetectActivity env s = (.exited, 1)) := by
  refine ⟨?_, ?_, ?_, ?_⟩ <;> intro hs <;>
    simp [codexGetActivityState, opencodeGetActivityState, aiderDetectActivity, hs] <;>
    intro hr <;> simp [hr]

/-- Witness for C5: a session with no runtime handle reports `exited` from all
three plugins without any liveness call. -/
theorem activity_short_circuit_witness :
    codexGetActivityState ⟨fun _ => .ok "", .ok "", fun _ => .ok⟩ ⟨"s1", none⟩ =
        (some ⟨.exited⟩, 0) ∧
      opencodeGetActivityState ⟨fun _ => .ok "", .ok "", fun _ => .ok⟩ ⟨"s1", none⟩ =
        (some ⟨.exited⟩, 0) ∧
      aiderDetectActivity ⟨fun _ => .ok "", .ok "", fun _ => .ok⟩ ⟨"s1", none⟩ =
        (.exited, 0) :=
  (activity_short_circuit ⟨fun _ => .ok "", .ok "", fun _ => .ok⟩ ⟨"s1", none⟩
    ⟨"process", "", none⟩).1 rfl

/-- C7 counterexample: agent-aider's own `isProcessRunning` issues both its
tmux and ps invocations with no execution timeout at all, contradicting the
claim that every liveness-check invocation carries a bounded timeout. -/
theorem aider_invocations_have_no_timeout :
    (aiderIsProcessRunningT
      ⟨fun _ => .ok "/dev/ttys001\n", .ok "", fun _ => .otherError⟩
      ⟨"tmux", "x", none⟩).2 = [⟨"tmux", none⟩, ⟨"ps", none⟩] := by
  decide

/-- C7 amended: every invocation issued by the shared `isAgentProcessRunning`
helper carries a hard 30 000 ms timeout and a thrown tmux or ps invocation
makes either check report `false` rather than crash; agent-aider's own
`isProcessRunning`, however, issues its invocations with no timeout. -/
theorem liveness_timeout_spec (env : ProcEnv) (h : RuntimeHandle)
    (pname msg : String) :
    (∀ inv ∈ (isAgentProcessRunningT env h pname).2, inv.timeoutMs = some 30000) ∧
    (∀ inv ∈ (aiderIsProcessRunningT env h).2, inv.timeoutMs = none) ∧
    (h.runtimeName = "tmux" → h.id ≠ "" → env.tmuxListPanes h.id = .error msg →
      (isAgentProcessRunningT env h pname).1 = false ∧
        (aiderIsProcessRunningT env h).1 = false) ∧
    (h.runtimeName = "tmux" → h.id ≠ "" → env.ps = .error msg →
      (isAgentProcessRunningT env h pname).1 = false ∧
        (aiderIsProcessRunningT env h).1 = false) := by
  by_cases htm : h.runtimeName = "tmux" ∧ h.id ≠ ""
  · cases hpanes : env.tmuxListPanes h.id with
    | error e =>
      cases hps : env.ps <;>
        simp [isAgentProcessRunningT, aiderIsProcessRunningT, htm, hpanes, hps]
    | ok ttyOut =>
      cases hps : env.ps <;>
        simp only [isAgentProcessRunningT, aiderIsProcessRunningT, htm, hpanes, hps,
          if_pos, if_true] <;>
        split_ifs <;>
        simp_all <;>
        intro inv hinv <;>
        simp_all [List.mem_cons]
  · have h1 : ¬ (h.runtimeName = "tmux" ∧ h.id ≠ "") := htm
    refine ⟨?_, ?_, ?_, ?_⟩
    · intro inv hinv
      simp only [isAgentProcessRunningT, if_neg h1] at hinv
      cases hp : h.pid with
      | none => simp [hp] at hinv
      | some p =>
        simp only [hp] at hinv
        split_ifs at hinv with h2
        · cases hk : env.kill0 p <;> simp [hk] at hinv
        · simp at hinv
    · intro inv hinv
      simp only [aiderIsProcessRunningT, if_neg h1] at hinv
      cases hp : h.pid with
      | none => simp [hp] at hinv
      | some p =>
        simp only [hp] at hinv
        split_ifs at hinv with h2
        · cases hk : env.kill0 p <;> simp [hk] at hinv
        · simp at hinv
    · intro ha hb _
      exact absurd ⟨ha, hb⟩ h1
    · intro ha hb _
      exact absurd ⟨ha, hb⟩ h1

/-- Witness for C7 amended: on a tmux handle whose `tmux list-panes` throws,
the shared helper's only invocation carried a 30 s timeout and both checks
report `false`. -/
theorem liveness_timeout_spec_witness :
    (isAgentProcessRunningT ⟨fun _ => .error "hung", .ok "", fun _ => .ok⟩
        ⟨"tmux", "x", none⟩ "codex").1 = false ∧
      (aiderIsProcessRunningT ⟨fun _ => .error "hung", .ok "", fun _ => .ok⟩
        ⟨"tmux", "x", none⟩).1 = false :=
  (liveness_timeout_spec ⟨fun _ => .error "hung", .ok "", fun _ => .ok⟩
    ⟨"tmux", "x", none⟩ "codex" "hung").2.2.1 rfl (by decide) rfl

/-- C9 counterexample: aider's own check and the shared helper disagree. On a
tmux pane whose only process has args `/aiderfoo`, aider's substring matcher
reports running while the shared helper's word-boundary regex does not; and on
a bare-process handle whose `kill` fails with EPERM, the shared helper reports
running while aider's check reports not running. -/
theorem aider_vs_shared_disagree :
    ((aiderIsProcessRunningT
        ⟨fun _ => .ok "/dev/ttys001\n", .ok "  123 ttys001 /aiderfoo", fun _ => .otherError⟩
        ⟨"tmux", "x", none⟩).1 = true ∧
      (isAgentProcessRunningT
        ⟨fun _ => .ok "/dev/ttys001\n", .ok "  123 ttys001 /aiderfoo", fun _ => .otherError⟩
        ⟨"tmux", "x", none⟩ "aider").1 = false) ∧
    ((aiderIsProcessRunningT ⟨fun _ => .ok "", .ok "", fun _ => .eperm⟩
        ⟨"process", "", some 7⟩).1 = false ∧
      (isAgentProcessRunningT ⟨fun _ => .ok "", .ok "", fun _ => .eperm⟩
        ⟨"process", "", some 7⟩ "aider").1 = true) := by
  decide

/-- C9 amended: on bare-process handles (the non-tmux branch) the two checks
agree whenever `process.kill(pid, 0)` does not fail with EPERM; on tmux
handles (substring vs. word-boundary matching, first-pane-only vs. all panes)
and on EPERM the two checks differ, as witnessed by the counterexample. -/
theorem aider_vs_shared_agree_non_tmux (env : ProcEnv) (h : RuntimeHandle) :
    ¬(h.runtimeName = "tmux" ∧ h.id ≠ "") →
    (∀ p, h.pid = some p → env.kill0 p ≠ .eperm) →
    (aiderIsProcessRunningT env h).1 = (isAgentProcessRunningT env h "aider").1 := by
  intro h1 h2
  simp only [aiderIsProcessRunningT, isAgentProcessRunningT, if_neg h1]
  cases hp : h.pid with
  | none => rfl
  | some p =>
    simp only []
    split_ifs with h3
    · cases hk : env.kill0 p with
      | ok => rfl
      | eperm => exact absurd hk (h2 p hp)
      | otherError => rfl
    · rfl

/-- Witness for C9 amended: on a bare-process handle with a live pid, both
checks report running. -/
theorem aider_vs_shared_agree_non_tmux_witness :
    (aiderIsProcessRunningT ⟨fun _ => .ok "", .ok "", fun _ => .ok⟩
        ⟨"process", "", some 7⟩).1 =
      (isAgentProcessRunningT ⟨fun _ => .ok "", .ok "", fun _ => .ok⟩
        ⟨"process", "", some 7⟩ "aider").1 :=
  aider_vs_shared_agree_non_tmux ⟨fun _ => .ok "", .ok "", fun _ => .ok⟩
    ⟨"process", "", some 7⟩ (by decide)
    (fun p _ hk => KillResult.noConfusion hk)

/-! ## Plugin lookup: CLI plugin tables and the web route's registry lookup -/

/-- Project configuration fields consulted during plugin resolution. -/
structure ProjectConfig where
  agent : Option String
  scmPlugin : Option String

/-- The orchestrator configuration slice used by plugin resolution: the
project table and the default agent name. -/
structure OrchestratorConfig where
  projects : List (String × ProjectConfig)
  defaultAgent : String

/-- Lookup of `config.projects[projectId]`. -/
def lookupProject (cfg : OrchestratorConfig) (pid : String) : Option ProjectConfig :=
  (cfg.projects.find? (fun p => p.1 == pid)).map Prod.snd

/-- JavaScript `a || b` on an optional string: falls through to `b` on
`undefined` and on the empty string. -/
def jsOrElse (a : Option String) (b : String) : String :=
  match a with
  | some s => if s = "" then b else s
  | none => b

/-- The agent plugin table keys (`claude-code`, `codex`, `aider`). -/
def agentPluginNames : List String := ["claude-code", "codex", "aider"]

/-- The SCM plugin table keys. -/
def scmPluginNames : List String := ["github"]

/-- The notifier plugin table keys. -/
def notifierPluginNames : List String := ["desktop", "slack", "webhook", "composio"]

/-- The agent name resolved by `getAgent`:
`(projectId ? config.projects[projectId]?.agent : undefined) || config.defaults.agent`. -/
def agentNameFor (cfg : OrchestratorConfig) (projectId : Option String) : String :=
  jsOrElse (projectId.bind fun pid => (lookupProject cfg pid).bind (fun p => p.agent))
    cfg.defaultAgent

/-- Embedding of `getAgent`: resolve the agent name, then look it up in the
plugin table, throwing a configuration error when absent. The ok value is the
resolved plugin name (standing for the constructed instance). -/
def getAgent (cfg : OrchestratorConfig) (projectId : Option String) : Except String String :=
  let agentName := agentNameFor cfg projectId
  if agentPluginNames.contains agentName then .ok agentName
  else .error ("Unknown agent plugin: " ++ agentName)

/-- Embedding of `getAgentByName`. -/
def getAgentByName (name : String) : Except String String :=
  if agentPluginNames.contains name then .ok name
  else .error ("Unknown agent plugin: " ++ name)

/-- The SCM name resolved by `getSCM`: the project's configured SCM plugin or
the `github` fallback. -/
def scmNameFor (cfg : OrchestratorConfig) (projectId : String) : String :=
  jsOrElse ((lookupProject cfg projectId).bind (fun p => p.scmPlugin)) "github"

/-- Embedding of `getSCM`. -/
def getSCM (cfg : OrchestratorConfig) (projectId : String) : Except String String :=
  let scmName := scmNameFor cfg projectId
  if scmPluginNames.contains scmName then .ok scmName
  else .error ("Unknown SCM plugin: " ++ scmName)

/-- JavaScript `Array.join(", ")`. -/
def commaJoin : List String → String
  | [] => ""
  | [s] => s
  | s :: rest => s ++ ", " ++ commaJoin rest

/-- Embedding of `getNotifier`, whose error lists the available plugin
names. -/
def getNotifier (name : String) : Except String String :=
  if notifierPluginNames.contains name then .ok name
  else
    .error ("Unknown notifier plugin: \"" ++ name ++ "\". Available: " ++
      commaJoin notifierPluginNames)

/-- The plugin registry as consulted by the web route: (slot, name) keyed
entries; `get` returns the entry or a silent null. -/
def registryGet (reg : List ((String × String) × String)) (slot name : String) :
    Option String :=
  (reg.find? (fun e => e.1.1 == slot && e.1.2 == name)).map Prod.snd

/-- The JSON response produced by the message route. -/
structure RouteResponse where
  status : Nat
  error : Option String
  success : Bool
deriving DecidableEq, Repr

/-- Embedding of the message route's runtime-resolution step: a null from
`registry.get("runtime", name)` yields a 500 configuration error; otherwise
the send is attempted and its failure is reported with a 500. -/
def messageRouteRuntime (reg : List ((String × String) × String)) (runtimeName : String)
    (send : Except String Unit) : RouteResponse :=
  match registryGet reg "runtime" runtimeName with
  | none => ⟨500, some "Runtime plugin not found", false⟩
  | some _ =>
    match send with
    | .ok _ => ⟨200, none, true⟩
    | .error m => ⟨500, some ("Failed to send message: " ++ m), false⟩

lemma isInfix_append_right {α : Type} (a l r : List α) (h : a <:+: l) : a <:+: l ++ r := by
  obtain ⟨s, t, rfl⟩ := h
  exact ⟨s, t ++ r, by simp⟩

/-- C6 counterexample: at the web boundary, `registry.get("runtime", "tmux")`
returning null for an unregistered name yields the error message
`Runtime plugin not found`, which does not identify the requested name
`tmux`, contradicting the claim that every plugin-resolution error identifies
both the slot kind and the requested name. -/
theorem route_error_omits_requested_name :
    registryGet [] "runtime" "tmux" = none ∧
      (messageRouteRuntime [] "tmux" (.ok ())).error = some "Runtime plugin not found" ∧
      ¬ ("tmux".data <:+: "Runtime plugin not found".data) := by
  refine ⟨rfl, rfl, by decide⟩

/-- C6 amended: `getAgent`, `getAgentByName`, `getSCM` and `getNotifier` fail
on a name absent from their plugin table with a caller-visible configuration
error naming both the slot kind and the requested name, never a silent null;
`registry.get` at the web boundary yields a caller-visible 500 configuration
error naming the slot kind (though not the requested name), never a silent
success. -/
theorem plugin_lookup_config_errors (cfg : OrchestratorConfig) (pid : Option String)
    (pid2 name : String) (reg : List ((String × String) × String))
    (send : Except String Unit) :
    (agentPluginNames.contains (agentNameFor cfg pid) = false →
      getAgent cfg pid = .error ("Unknown agent plugin: " ++ agentNameFor cfg pid) ∧
      (agentNameFor cfg pid).data <:+: ("Unknown agent plugin: " ++ agentNameFor cfg pid).data ∧
      "agent".data <:+: ("Unknown agent plugin: " ++ agentNameFor cfg pid).data) ∧
    (agentPluginNames.contains name = false →
      getAgentByName name = .error ("Unknown agent plugin: " ++ name) ∧
      name.data <:+: ("Unknown agent plugin: " ++ name).data ∧
      "agent".data <:+: ("Unknown agent plugin: " ++ name).data) ∧
    (scmPluginNames.contains (scmNameFor cfg pid2) = false →
      getSCM cfg pid2 = .error ("Unknown SCM plugin: " ++ scmNameFor cfg pid2) ∧
      (scmNameFor cfg pid2).data <:+: ("Unknown SCM plugin: " ++ scmNameFor cfg pid2).data ∧
      "SCM".data <:+: ("Unknown SCM plugin: " ++ scmNameFor cfg pid2).data) ∧
    (notifierPluginNames.contains name = false →
      getNotifier name = .error ("Unknown notifier plugin: \"" ++ name ++
        "\". Available: " ++ commaJoin notifierPluginNames) ∧
      name.data <:+: ("Unknown notifier plugin: \"" ++ name ++
        "\". Available: " ++ commaJoin notifierPluginNames).data ∧
      "notifier".data <:+: ("Unknown notifier plugin: \"" ++ name ++
        "\". Available: " ++ commaJoin notifierPluginNames).data) ∧
    (registryGet reg "runtime" name = none →
      messageRouteRuntime reg name send = ⟨500, some "Runtime plugin not found", false⟩ ∧
      "Runtime".data <:+: "Runtime plugin not found".data) := by
  refine ⟨?_, ?_, ?_, ?_, ?_⟩
  · intro hm
    have hm2 : agentNameFor cfg pid ∉ agentPluginNames := by simpa using hm
    refine ⟨by simp [getAgent, hm2], ?_, ?_⟩
    · exact (List.suffix_append "Unknown agent plugin: ".data
        (agentNameFor cfg pid).data).isInfix
    · exact isInfix_append_right _ _ _ (by decide)
  · intro hm
    have hm2 : name ∉ agentPluginNames := by simpa using hm
    refine ⟨by simp [getAgentByName, hm2], ?_, ?_⟩
    · exact (List.suffix_append "Unknown agent plugin: ".data name.data).isInfix
    · exact isInfix_append_right _ _ _ (by decide)
  · intro hm
    have hm2 : scmNameFor cfg pid2 ∉ scmPluginNames := by simpa using hm
    refine ⟨by simp [getSCM, hm2], ?_, ?_⟩
    · exact (List.suffix_append "Unknown SCM plugin: ".data
        (scmNameFor cfg pid2).data).isInfix
    · exact isInfix_append_right _ _ _ (by decide)
  · intro hm
    have hm2 : name ∉ notifierPluginNames := by simpa using hm
    refine ⟨by simp [getNotifier, hm2], ?_, ?_⟩
    · exact isInfix_append_right _ _ _ (isInfix_append_right _ _ _
        ((List.suffix_append "Unknown notifier plugin: \"".data name.data).isInfix))
    · exact isInfix_append_right _ _ _ (isInfix_append_right _ _ _
        (isInfix_append_right _ _ _ (by decide)))
  · intro hm
    exact ⟨by simp [messageRouteRuntime, hm], by decide⟩

/-- Witness for C6 amended: resolving the unregistered notifier name `bogus`
produces the configuration error listing the available plugins. -/
theorem plugin_lookup_config_errors_witness :
    getNotifier "bogus" =
      .error ("Unknown notifier plugin: \"" ++ "bogus" ++ "\". Available: " ++
        commaJoin notifierPluginNames) :=
  ((plugin_lookup_config_errors ⟨[], "claude-code"⟩ none "p" "bogus" []
    (.ok ())).2.2.2.1 (by decide)).1

end AgentOrchestrator
